import Mathlib

/-!
# Verification of the multi-operation data-cleaning pipeline

Shallow embedding of the cleaning engine implemented in `src/app.py`
(Flask backend `backend_proceso_datos`).  The pipeline endpoint
`limpiar_dataset_multiple` loads a CSV dataset into a pandas DataFrame and
applies an ordered list of cleaning operations (`duplicados`, `nulos`,
`outliers`), accumulating a per-operation report, then publishes artifacts
and catalog records through Supabase.

The embedding models:
* a pandas DataFrame as `Frame` (named, kinded columns; row-major cells),
* the three cleaning operations exactly as the Python loop body computes them,
* the pipeline loop as `runOps` (short-circuiting on raised exceptions),
* the HTTP endpoint `limpiarEndpoint` together with the list of external
  side effects (storage uploads, catalog inserts) it performs,
* the upload-time file reading of `create_dataset` (UTF-8 with latin-1
  fallback for CSV, UTF-8 only for JSON) as `readDataset`.
-/

deriving instance DecidableEq for Except

namespace Backend

/-- A scalar cell value: pandas object (string) or numeric (int64/float64
modelled together as an exact rational). -/
inductive Value where
  | str : String → Value
  | num : ℚ → Value
deriving DecidableEq, Repr

/-- A cell: `none` models a pandas null (`NaN`). -/
abbrev Cell := Option Value

/-- A row is the list of cells, positionally aligned with the headers. -/
abbrev Row := List Cell

/-- The pandas dtype of a column as the cleaning code distinguishes them:
`object` (textual) versus numeric (`float64`/`int64`). -/
inductive ColKind where
  | obj : ColKind
  | numeric : ColKind
deriving DecidableEq, Repr

/-- A DataFrame: named, kinded columns and row-major cells.
Invariant (`Frame.wf`): every row has exactly one cell per column. -/
structure Frame where
  headers : List (String × ColKind)
  rows : List Row
deriving DecidableEq, Repr

/-- All rows are aligned with the header list. -/
def Frame.wf (f : Frame) : Prop :=
  ∀ r ∈ f.rows, r.length = f.headers.length

instance (f : Frame) : Decidable f.wf := by
  unfold Frame.wf; infer_instance

/-- Index of a named column, as `df[col]` resolves it. -/
def Frame.colIdx (f : Frame) (c : String) : Option ℕ :=
  (f.headers.map Prod.fst).indexOf? c

/-- Declared kind of the column at index `j`. -/
def Frame.kindAt (f : Frame) (j : ℕ) : ColKind :=
  ((f.headers.getD j ("", ColKind.obj))).2

/-- Cell of row `i` at column `j`. -/
def Frame.cellAt (f : Frame) (i j : ℕ) : Cell :=
  (f.rows.getD i []).getD j none

/-- Names of the numeric columns, as
`df.select_dtypes(include=[float64, int64]).columns` lists them. -/
def Frame.numericCols (f : Frame) : List String :=
  (f.headers.filter (fun h => h.2 = ColKind.numeric)).map Prod.fst

/-! ## Deduplication (`tipo == "duplicados"`)

`df.duplicated()` flags every row equal to an earlier row (first occurrence
kept); `df.drop_duplicates()` keeps the non-flagged rows.  pandas treats
`NaN` cells as equal for this purpose, which `Cell` equality reproduces
(`none = none`).  `keepAux seen rs` are the kept rows, `dupsAux seen rs` the
flagged rows, with `seen` the rows already encountered. -/

def keepAux (seen : List Row) : List Row → List Row
  | [] => []
  | r :: rs => if r ∈ seen then keepAux seen rs else r :: keepAux (r :: seen) rs

def dupsAux (seen : List Row) : List Row → List Row
  | [] => []
  | r :: rs => if r ∈ seen then r :: dupsAux seen rs else dupsAux (r :: seen) rs

/-- Rows kept by `df.drop_duplicates()`. -/
def dropDuplicates (rs : List Row) : List Row := keepAux [] rs

/-- Rows of `df[df.duplicated()]`. -/
def duplicatedRows (rs : List Row) : List Row := dupsAux [] rs

/-! ## Null filling (`tipo == "nulos"`) -/

/-- `df[col].fillna("N/A")` for object columns, `df[col].fillna(0)` otherwise,
at the level of one cell. -/
def fillCell (k : ColKind) (c : Cell) : Cell :=
  match c with
  | none => some (match k with
      | ColKind.obj => Value.str "N/A"
      | ColKind.numeric => Value.num 0)
  | some v => some v

/-- Apply the per-column fill to one row (kinds are positional). -/
def fillRow (ks : List ColKind) (r : Row) : Row :=
  List.zipWith fillCell ks r

/-- Null cells in one row. -/
def countNullsRow (r : Row) : ℕ :=
  (r.filter (fun c => c = none)).length

/-- `df.isnull().sum().sum()`: total null cells of the frame. -/
def countNulls (f : Frame) : ℕ :=
  (f.rows.map countNullsRow).sum

/-- The whole `nulos` branch: fill every column by its dtype. -/
def fillNulls (f : Frame) : Frame :=
  { f with rows := f.rows.map (fillRow (f.headers.map Prod.snd)) }

/-! ## Outlier removal (`tipo == "outliers"`) -/

/-- Errors raised inside the cleaning loop, named after the spec's taxonomy:
`columnNotFound` models the `KeyError` from `df[col]` on a missing column and
`columnType` the `TypeError` from `Series.quantile` on an object column. -/
inductive CleanError where
  | columnNotFound : String → CleanError
  | columnType : String → CleanError
deriving DecidableEq, Repr

/-- Insert into a sorted list (ascending). -/
def insertSorted (x : ℚ) : List ℚ → List ℚ
  | [] => [x]
  | y :: ys => if x ≤ y then x :: y :: ys else y :: insertSorted x ys

/-- Ascending sort, used to model pandas putting values in order before
interpolating a quantile. -/
def sortQ (xs : List ℚ) : List ℚ := xs.foldr insertSorted []

/-- `Series.quantile(q)` with the default linear interpolation over the
non-null values `xs`: position `q*(n-1)` between the order statistics.
`none` models the `NaN` returned for an empty series. -/
def quantile (xs : List ℚ) (q : ℚ) : Option ℚ :=
  match sortQ xs with
  | [] => none
  | s =>
    let pos : ℚ := q * ((s.length : ℚ) - 1)
    let i : ℕ := pos.floor.toNat
    let lo := s.getD i 0
    let hi := s.getD (i + 1) lo
    some (lo + (pos - (i : ℚ)) * (hi - lo))

/-- Non-null numeric values of column `j` (pandas skips `NaN` in quantiles). -/
def Frame.colNums (f : Frame) (j : ℕ) : List ℚ :=
  f.rows.filterMap (fun r =>
    match r.getD j none with
    | some (Value.num v) => some v
    | _ => none)

/-- One iteration of the `for col in columnas` loop: compute Q1/Q3/IQR of the
current frame's column and keep the rows inside
`[Q1 - umbral*IQR, Q3 + umbral*IQR]`.  A missing column raises (`KeyError`),
an object column raises (`TypeError`); a `NaN` bound (empty column) makes
both comparisons false for every row, clearing the frame, and a `NaN` cell
likewise fails the comparison and is dropped. -/
def outlierStep (umbral : ℚ) (f : Frame) (c : String) : Except CleanError Frame :=
  match f.colIdx c with
  | none => Except.error (CleanError.columnNotFound c)
  | some j =>
    if f.kindAt j = ColKind.obj then Except.error (CleanError.columnType c)
    else
      match quantile (f.colNums j) (1/4), quantile (f.colNums j) (3/4) with
      | some q1, some q3 =>
        let iqr := q3 - q1
        let lower := q1 - umbral * iqr
        let upper := q3 + umbral * iqr
        Except.ok { f with rows := f.rows.filter (fun r =>
          match r.getD j none with
          | some (Value.num v) => decide (lower ≤ v) && decide (v ≤ upper)
          | _ => false) }
      | _, _ => Except.ok { f with rows := [] }

/-- The whole `outliers` branch: fold the per-column filter over the listed
columns in order, each step consuming the frame the previous one produced. -/
def removeOutliers (cols : List String) (umbral : ℚ) (f : Frame) :
    Except CleanError Frame :=
  cols.foldlM (outlierStep umbral) f

/-! ## The pipeline loop -/

/-- One entry of `tipos_limpieza`: `{"tipo": ..., "parametros": {...}}` with
the two parameters the code reads (`columnas`, `umbral`), each optional. -/
structure Op where
  tipo : String
  columnas : Option (List String) := none
  umbral : Option ℚ := none
deriving DecidableEq, Repr

/-- One entry of `operaciones_realizadas`: the operation echoed with its
parameters plus the computed `afectados`. -/
structure OpResult where
  tipo : String
  columnas : Option (List String)
  umbral : Option ℚ
  afectados : ℕ
deriving DecidableEq, Repr

/-- Loop state: the current frame `df`, the accumulated report
`operaciones_realizadas`, the running `total_afectados`, and
`duplicados_guardados` (initially the empty DataFrame). -/
structure PipeState where
  df : Frame
  report : List OpResult
  total : ℕ
  dups : List Row
deriving DecidableEq, Repr

/-- `initState` mirrors the initialisation just before the loop. -/
def initState (f : Frame) : PipeState :=
  { df := f, report := [], total := 0, dups := [] }

/-- One iteration of the `for limpieza in tipos_limpieza` loop.  Note
`duplicados_guardados` is assigned, not extended, by a `duplicados`
operation; an unrecognised `tipo` leaves the frame alone and records
`afectados = 0`; only `outliers` can raise. -/
def applyOp (st : PipeState) (op : Op) : Except CleanError PipeState :=
  if op.tipo = "duplicados" then
    let kept := dropDuplicates st.df.rows
    let afect := st.df.rows.length - kept.length
    Except.ok { df := { st.df with rows := kept },
                report := st.report ++ [⟨op.tipo, op.columnas, op.umbral, afect⟩],
                total := st.total + afect,
                dups := duplicatedRows st.df.rows }
  else if op.tipo = "nulos" then
    let afect := countNulls st.df
    Except.ok { st with
                df := fillNulls st.df,
                report := st.report ++ [⟨op.tipo, op.columnas, op.umbral, afect⟩],
                total := st.total + afect }
  else if op.tipo = "outliers" then
    let cols := op.columnas.getD st.df.numericCols
    let u := op.umbral.getD (3/2)
    match removeOutliers cols u st.df with
    | Except.error e => Except.error e
    | Except.ok df2 =>
      let afect := st.df.rows.length - df2.rows.length
      Except.ok { st with
                  df := df2,
                  report := st.report ++ [⟨op.tipo, op.columnas, op.umbral, afect⟩],
                  total := st.total + afect }
  else
    Except.ok { st with
                report := st.report ++ [⟨op.tipo, op.columnas, op.umbral, 0⟩] }

/-- Outcome of running the loop: either it completes with a final state, or
an exception aborts it, carrying the raised error together with the loop
state at the moment of the raise (prior operations' effects retained). -/
inductive RunOutcome where
  | done : PipeState → RunOutcome
  | failed : CleanError → PipeState → RunOutcome
deriving DecidableEq, Repr

/-- The loop itself: apply the operations in submission order, stopping at
the first raised exception. -/
def runOps (st : PipeState) : List Op → RunOutcome
  | [] => RunOutcome.done st
  | op :: rest =>
    match applyOp st op with
    | Except.ok st2 => runOps st2 rest
    | Except.error e => RunOutcome.failed e st

/-! ## The `/api/limpiezas` POST endpoint -/

/-- The JSON request body, reduced to the two fields the handler reads.
`dataset_id` is absent (`data.get` returning `None`) or an integer. -/
structure Request where
  dataset_id : Option Int
  tipos_limpieza : List Op
deriving DecidableEq, Repr

/-- Python falsiness of `dataset_id` as tested by `if not dataset_id`. -/
def falsyId : Option Int → Bool
  | none => true
  | some n => n = 0

/-- The stored dataset row joined with its blob content, already parsed:
`ruta` is `ruta_almacenamiento` and `frame` the DataFrame read from the
downloaded bytes. -/
structure StoredDataset where
  ruta : String
  frame : Frame
deriving DecidableEq, Repr

/-- External side effects the handler performs against Supabase, in program
order: the catalog query for the dataset row, the blob download, blob
uploads, and the two possible catalog inserts. -/
inductive Effect where
  | queryDataset : Int → Effect
  | downloadBlob : String → Effect
  | uploadBlob : String → Effect
  | insertDuplicados : Int → String → ℕ → Effect
  | insertLimpieza : Int → List OpResult → ℕ → String → Option String → Effect
deriving DecidableEq, Repr

/-- The handler's HTTP outcome. `serverError` is the generic
`except Exception` handler returning the raised error as the body. -/
inductive ApiResult where
  | badRequest : ApiResult
  | notFound : ApiResult
  | serverError : CleanError → ApiResult
  | success : List OpResult → ℕ → String → Option String → ApiResult
deriving DecidableEq, Repr

/-- Characters after the last slash (`acc` is the segment read so far). -/
def basenameAux (acc : List Char) : List Char → List Char
  | [] => acc
  | ch :: rest =>
    if ch = '/' then basenameAux [] rest else basenameAux (acc ++ [ch]) rest

/-- `os.path.basename`: the part of the path after the last slash. -/
def basename (s : String) : String := String.mk (basenameAux [] s.data)

/-- `supabase.storage.from_("datasets").get_public_url(path)`. -/
def publicUrl (p : String) : String := "https://storage/datasets/" ++ p

/-- The whole handler `limpiar_dataset_multiple`: request validation, dataset
lookup (`lookup` is the catalog's answer), download, the cleaning loop, then
artifact publication and catalog records.  Returns the HTTP outcome together
with the list of external effects performed, in order.  An exception inside
the loop reaches the generic handler: the effects performed so far stand,
but no uploads and no inserts happen. -/
def limpiarEndpoint (req : Request) (lookup : Option StoredDataset) :
    ApiResult × List Effect :=
  if falsyId req.dataset_id || req.tipos_limpieza.isEmpty then
    (ApiResult.badRequest, [])
  else
    let id := req.dataset_id.getD 0
    match lookup with
    | none => (ApiResult.notFound, [Effect.queryDataset id])
    | some ds =>
      let pre := [Effect.queryDataset id, Effect.downloadBlob ds.ruta]
      match runOps (initState ds.frame) req.tipos_limpieza with
      | RunOutcome.failed e _ => (ApiResult.serverError e, pre)
      | RunOutcome.done st =>
        let cleanPath := "clean/clean_multi_" ++ basename ds.ruta
        let dupPath : Option String :=
          if st.dups.isEmpty then none
          else some ("duplicates/duplicates_" ++ basename ds.ruta)
        let effs := pre ++ [Effect.uploadBlob cleanPath] ++
          (match dupPath with
           | some p => [Effect.uploadBlob p,
                        Effect.insertDuplicados id p st.dups.length]
           | none => []) ++
          [Effect.insertLimpieza id st.report st.total cleanPath dupPath]
        (ApiResult.success st.report st.total (publicUrl cleanPath)
          (dupPath.map publicUrl), effs)

/-! ## Loading uploaded files (`create_dataset`)

`create_dataset` reads the uploaded file by extension: `.csv` with
`pd.read_csv(..., encoding=utf-8)`, retrying with `encoding=latin-1`
exactly on a `UnicodeDecodeError`; `.json` with
`pd.read_json(..., encoding=utf-8)` and no retry; any other extension is
rejected ("Formato no soportado").  Bytes are `List ℕ` (values < 256) and
decoded text is a list of Unicode code points. -/

/-- Failures of the read step.  `decodeFailure` is a `UnicodeDecodeError`
escaping to the generic handler, `parseFailure` a pandas parser error, and
`formatError` the unsupported-extension rejection. -/
inductive LoadError where
  | formatError : LoadError
  | decodeFailure : LoadError
  | parseFailure : LoadError
deriving DecidableEq, Repr

/-- The declared format, from the uploaded filename's extension. -/
inductive Fmt where
  | csv : Fmt
  | json : Fmt
  | other : Fmt
deriving DecidableEq, Repr

/-- UTF-8 continuation byte. -/
def isCont (b : ℕ) : Bool := decide (0x80 ≤ b) && decide (b < 0xC0)

/-- Strict UTF-8 decoding, as Python's `utf-8` codec: rejects stray
continuation bytes, overlong encodings, surrogates and code points past
U+10FFFF.  `none` models a raised `UnicodeDecodeError`. -/
def utf8Decode : List ℕ → Option (List ℕ)
  | [] => some []
  | b :: bs =>
    if b < 0x80 then
      (utf8Decode bs).map (b :: ·)
    else if b < 0xC2 then none
    else if b < 0xE0 then
      match bs with
      | b2 :: rest =>
        if isCont b2 then
          (utf8Decode rest).map (((b - 0xC0) * 64 + (b2 - 0x80)) :: ·)
        else none
      | [] => none
    else if b < 0xF0 then
      match bs with
      | b2 :: b3 :: rest =>
        if isCont b2 && isCont b3 then
          let cp := (b - 0xE0) * 4096 + (b2 - 0x80) * 64 + (b3 - 0x80)
          if cp < 0x800 ∨ (0xD800 ≤ cp ∧ cp < 0xE000) then none
          else (utf8Decode rest).map (cp :: ·)
        else none
      | _ => none
    else if b < 0xF5 then
      match bs with
      | b2 :: b3 :: b4 :: rest =>
        if isCont b2 && isCont b3 && isCont b4 then
          let cp := (b - 0xF0) * 262144 + (b2 - 0x80) * 4096 +
                    (b3 - 0x80) * 64 + (b4 - 0x80)
          if cp < 0x10000 ∨ 0x110000 ≤ cp then none
          else (utf8Decode rest).map (cp :: ·)
        else none
      | _ => none
    else none

/-- The `latin-1` codec maps each byte to the code point of the same value;
it never raises. -/
def latin1Decode (bytes : List ℕ) : List ℕ := bytes

/-- Universal-newline translation done by Python's text mode. -/
def normalizeNewlines : List ℕ → List ℕ
  | [] => []
  | 13 :: 10 :: rest => 10 :: normalizeNewlines rest
  | 13 :: rest => 10 :: normalizeNewlines rest
  | c :: rest => c :: normalizeNewlines rest

/-- Split a code-point list on a separator (keeping empty segments). -/
def splitOnCp (sep : ℕ) : List ℕ → List (List ℕ)
  | [] => [[]]
  | c :: rest =>
    let r := splitOnCp sep rest
    if c = sep then [] :: r
    else
      match r with
      | [] => [[c]]
      | l :: ls => (c :: l) :: ls

/-- Code points to a Lean string. -/
def cpsToString (l : List ℕ) : String :=
  String.mk (l.map Char.ofNat)

/-- Decimal digit run to its value (`none` if empty or non-digit). -/
def parseDigits (l : List ℕ) : Option ℕ :=
  match l with
  | [] => none
  | _ => l.foldl (fun acc c =>
      match acc with
      | none => none
      | some n => if 48 ≤ c ∧ c ≤ 57 then some (n * 10 + (c - 48)) else none)
      (some 0)

/-- Unsigned decimal literal, integral or with a fractional part. -/
def parseNumberPos (l : List ℕ) : Option ℚ :=
  match splitOnCp 46 l with
  | [ip] => (parseDigits ip).map (fun n => (n : ℚ))
  | [ip, fp] =>
    match parseDigits ip, parseDigits fp with
    | some n, some m => some ((n : ℚ) + (m : ℚ) / ((10 : ℚ) ^ fp.length))
    | _, _ => none
  | _ => none

/-- Decimal literal with optional leading minus, as pandas type inference
recognises numbers in a CSV field. -/
def parseNumber (l : List ℕ) : Option ℚ :=
  match l with
  | 45 :: rest => (parseNumberPos rest).map (fun q => -q)
  | _ => parseNumberPos l

/-- One CSV field to a cell: empty is `NaN`, a numeric literal a number,
anything else a string. -/
def parseField (l : List ℕ) : Cell :=
  match l with
  | [] => none
  | _ =>
    match parseNumber l with
    | some q => some (Value.num q)
    | none => some (Value.str (cpsToString l))

/-- pandas dtype inference per column: `object` as soon as a string value
occurs, numeric otherwise. -/
def inferKind (rows : List Row) (j : ℕ) : ColKind :=
  if rows.any (fun r =>
      match r.getD j none with
      | some (Value.str _) => true
      | _ => false)
  then ColKind.obj else ColKind.numeric

/-- Assemble a frame from column names and parsed rows. -/
def mkFrame (names : List String) (rows : List Row) : Frame :=
  { headers := names.enum.map (fun p => (p.2, inferKind rows p.1)),
    rows := rows }

/-- Pad a short record with empty fields (pandas fills missing trailing
fields with `NaN`). -/
def padRecord (w : ℕ) (r : List (List ℕ)) : List (List ℕ) :=
  r ++ List.replicate (w - r.length) []

/-- `pd.read_csv` on decoded text: header line then records, fields split on
commas.  With `skipBad` (the `on_bad_lines=skip` call site) records with more
fields than the header are dropped; without it (the `create_dataset` call
site, pandas default) such a record raises a parser error.  An empty file
raises (`EmptyDataError`). -/
def csvParse (skipBad : Bool) (text : List ℕ) : Except LoadError Frame :=
  match (splitOnCp 10 (normalizeNewlines text)).filter (fun l => l ≠ []) with
  | [] => Except.error LoadError.parseFailure
  | headerLine :: dataLines =>
    let names := (splitOnCp 44 headerLine).map cpsToString
    let w := names.length
    let rawRows := dataLines.map (splitOnCp 44)
    if skipBad then
      Except.ok (mkFrame names
        ((rawRows.filter (fun r => r.length ≤ w)).map
          (fun r => (padRecord w r).map parseField)))
    else if rawRows.any (fun r => w < r.length) then
      Except.error LoadError.parseFailure
    else
      Except.ok (mkFrame names (rawRows.map (fun r => (padRecord w r).map parseField)))

/-- Drop leading JSON whitespace. -/
def skipWs : List ℕ → List ℕ
  | c :: rest => if c = 32 ∨ c = 9 ∨ c = 10 ∨ c = 13 then skipWs rest else c :: rest
  | [] => []

/-- Content of a JSON string after the opening quote, up to the closing
quote (escape sequences are not modelled; they fail the parse). -/
def takeJsonString : List ℕ → Option (List ℕ × List ℕ)
  | [] => none
  | c :: rest =>
    if c = 34 then some ([], rest)
    else if c = 92 then none
    else (takeJsonString rest).map (fun p => (c :: p.1, p.2))

/-- Character allowed in a JSON number literal as modelled here. -/
def numCp (c : ℕ) : Bool := c = 45 ∨ c = 46 ∨ (48 ≤ c ∧ c ≤ 57)

/-- One scalar JSON value (string, number or null) to a cell. -/
def parseJsonValue (l : List ℕ) : Option (Cell × List ℕ) :=
  match l with
  | 34 :: rest =>
    (takeJsonString rest).map (fun p => (some (Value.str (cpsToString p.1)), p.2))
  | 110 :: 117 :: 108 :: 108 :: rest => some (none, rest)
  | _ =>
    let lit := l.takeWhile numCp
    match parseNumber lit with
    | some q => some (some (Value.num q), l.dropWhile numCp)
    | none => none

/-- Key/value pairs of one JSON object, after its opening brace; `fuel`
bounds the recursion by the input length. -/
def parseJsonPairs (fuel : ℕ) (l : List ℕ) : Option (List (String × Cell) × List ℕ) :=
  match fuel with
  | 0 => none
  | fuel + 1 =>
    match skipWs l with
    | 34 :: rest =>
      match takeJsonString rest with
      | none => none
      | some (k, r1) =>
        match skipWs r1 with
        | 58 :: r2 =>
          match parseJsonValue (skipWs r2) with
          | none => none
          | some (v, r3) =>
            match skipWs r3 with
            | 44 :: r4 =>
              (parseJsonPairs fuel r4).map (fun p => ((cpsToString k, v) :: p.1, p.2))
            | 125 :: r4 => some ([(cpsToString k, v)], r4)
            | _ => none
        | _ => none
    | _ => none

/-- The records of a JSON array of flat objects, after the opening bracket. -/
def parseJsonRecords (fuel : ℕ) (l : List ℕ) :
    Option (List (List (String × Cell)) × List ℕ) :=
  match fuel with
  | 0 => none
  | fuel + 1 =>
    match skipWs l with
    | 123 :: rest =>
      match parseJsonPairs fuel rest with
      | none => none
      | some (ps, r1) =>
        match skipWs r1 with
        | 44 :: r2 =>
          (parseJsonRecords fuel r2).map (fun p => (ps :: p.1, p.2))
        | 93 :: r2 => some ([ps], r2)
        | _ => none
    | _ => none

/-- `pd.read_json` on decoded text, modelled for the records orientation: a
JSON array of flat objects whose keys agree record to record becomes a
frame; anything else raises a parse failure. -/
def jsonParse (text : List ℕ) : Except LoadError Frame :=
  match skipWs text with
  | 91 :: rest =>
    match parseJsonRecords (text.length + 1) rest with
    | some (recs, r) =>
      match skipWs r, recs with
      | [], first :: _ =>
        let names := first.map Prod.fst
        if recs.all (fun rec => rec.map Prod.fst = names) then
          Except.ok (mkFrame names (recs.map (fun rec => rec.map Prod.snd)))
        else Except.error LoadError.parseFailure
      | _, _ => Except.error LoadError.parseFailure
    | none => Except.error LoadError.parseFailure
  | _ => Except.error LoadError.parseFailure

/-- The reading step of `create_dataset`, dispatching on the filename
extension.  CSV attempts UTF-8 and, exactly on a decoding failure, retries
once with latin-1 (which cannot fail to decode); JSON attempts UTF-8 only, a
decoding failure propagating to the generic handler; any other extension is
rejected with the unsupported-format error. -/
def readDataset (bytes : List ℕ) (fmt : Fmt) : Except LoadError Frame :=
  match fmt with
  | Fmt.csv =>
    match utf8Decode bytes with
    | some t => csvParse false t
    | none => csvParse false (latin1Decode bytes)
  | Fmt.json =>
    match utf8Decode bytes with
    | some t => jsonParse t
    | none => Except.error LoadError.decodeFailure
  | Fmt.other => Except.error LoadError.formatError

/-- The reading step of `limpiar_dataset_multiple` (lines 146–149): CSV with
`on_bad_lines=skip`, UTF-8 first, latin-1 exactly on a decoding failure. -/
def readCsvLimpiar (bytes : List ℕ) : Except LoadError Frame :=
  match utf8Decode bytes with
  | some t => csvParse true t
  | none => csvParse true (latin1Decode bytes)

/-- The error `outlierStep` raises for column `c` of frame `f` (`none` when
the column is present and numeric, so the step succeeds). -/
def colError (f : Frame) (c : String) : Option CleanError :=
  match f.colIdx c with
  | none => some (CleanError.columnNotFound c)
  | some j =>
    if f.kindAt j = ColKind.obj then some (CleanError.columnType c) else none

/-- Column `c` of `f` exists and is numeric. -/
def goodCol (f : Frame) (c : String) : Prop :=
  ∃ j, f.colIdx c = some j ∧ f.kindAt j = ColKind.numeric

instance (f : Frame) (c : String) : Decidable (goodCol f c) := by
  unfold goodCol
  cases h : f.colIdx c with
  | none => exact Decidable.isFalse (by simp [h])
  | some j =>
    exact decidable_of_iff (f.kindAt j = ColKind.numeric) (by simp [h])

/-! ## Lemmas about deduplication -/

theorem keepAux_not_mem : ∀ (l seen : List Row), ∀ r ∈ keepAux seen l, r ∉ seen := by
  intro l
  induction l with
  | nil => intro seen r hr; simp [keepAux] at hr
  | cons a l ih =>
    intro seen r hr
    by_cases ha : a ∈ seen
    · rw [keepAux, if_pos ha] at hr
      exact ih seen r hr
    · rw [keepAux, if_neg ha] at hr
      rcases List.mem_cons.mp hr with rfl | hr
      · exact ha
      · intro hcon
        exact ih (a :: seen) r hr (List.mem_cons_of_mem a hcon)

theorem keepAux_nodup : ∀ (l seen : List Row), (keepAux seen l).Nodup := by
  intro l
  induction l with
  | nil => intro seen; simp [keepAux]
  | cons a l ih =>
    intro seen
    by_cases ha : a ∈ seen
    · rw [keepAux, if_pos ha]; exact ih seen
    · rw [keepAux, if_neg ha]
      refine List.nodup_cons.mpr ⟨?_, ih (a :: seen)⟩
      intro hmem
      exact keepAux_not_mem l (a :: seen) a hmem (List.mem_cons_self a seen)

theorem keepAux_eq_self : ∀ (l seen : List Row), l.Nodup → (∀ r ∈ l, r ∉ seen) →
    keepAux seen l = l := by
  intro l
  induction l with
  | nil => intro seen _ _; rfl
  | cons a l ih =>
    intro seen hnd hout
    have ha : a ∉ seen := hout a (List.mem_cons_self a l)
    rw [keepAux, if_neg ha]
    congr 1
    refine ih (a :: seen) (List.nodup_cons.mp hnd).2 ?_
    intro r hr
    intro hcon
    rcases List.mem_cons.mp hcon with rfl | hcon
    · exact (List.nodup_cons.mp hnd).1 hr
    · exact hout r (List.mem_cons_of_mem a hr) hcon

theorem dupsAux_eq_nil : ∀ (l seen : List Row), l.Nodup → (∀ r ∈ l, r ∉ seen) →
    dupsAux seen l = [] := by
  intro l
  induction l with
  | nil => intro seen _ _; rfl
  | cons a l ih =>
    intro seen hnd hout
    have ha : a ∉ seen := hout a (List.mem_cons_self a l)
    rw [dupsAux, if_neg ha]
    refine ih (a :: seen) (List.nodup_cons.mp hnd).2 ?_
    intro r hr hcon
    rcases List.mem_cons.mp hcon with rfl | hcon
    · exact (List.nodup_cons.mp hnd).1 hr
    · exact hout r (List.mem_cons_of_mem a hr) hcon

theorem dropDuplicates_idem (rs : List Row) :
    dropDuplicates (dropDuplicates rs) = dropDuplicates rs := by
  unfold dropDuplicates
  exact keepAux_eq_self _ [] (keepAux_nodup rs []) (by intro r _; simp)

theorem duplicatedRows_dropDuplicates (rs : List Row) :
    duplicatedRows (dropDuplicates rs) = [] := by
  unfold duplicatedRows dropDuplicates
  exact dupsAux_eq_nil _ [] (keepAux_nodup rs []) (by intro r _; simp)

/-! ## Lemmas about null filling -/

theorem fillCell_ne_none (k : ColKind) (c : Cell) : fillCell k c ≠ none := by
  cases c <;> simp [fillCell]

theorem countNullsRow_fillRow (ks : List ColKind) (r : Row) :
    countNullsRow (fillRow ks r) = 0 := by
  induction ks generalizing r with
  | nil => simp [fillRow, countNullsRow]
  | cons k ks ih =>
    cases r with
    | nil => simp [fillRow, countNullsRow]
    | cons c r =>
      have := ih r
      simp only [fillRow, List.zipWith_cons_cons, countNullsRow, List.filter] at *
      rw [decide_eq_false (fillCell_ne_none k c)]
      exact this

theorem countNulls_fillNulls (f : Frame) : countNulls (fillNulls f) = 0 := by
  unfold countNulls fillNulls
  simp only [List.map_map]
  refine List.sum_eq_zero ?_
  intro x hx
  rcases List.mem_map.mp hx with ⟨r, _, rfl⟩
  exact countNullsRow_fillRow _ r

/-! ## Lemmas about outlier filtering -/

theorem outlierStep_headers (u : ℚ) (f : Frame) (c : String) (g : Frame)
    (h : outlierStep u f c = Except.ok g) : g.headers = f.headers := by
  unfold outlierStep at h
  cases hidx : f.colIdx c with
  | none => rw [hidx] at h; dsimp only at h; cases h
  | some j =>
    rw [hidx] at h
    dsimp only at h
    by_cases hk : f.kindAt j = ColKind.obj
    · rw [if_pos hk] at h; cases h
    · rw [if_neg hk] at h
      cases h1 : quantile (f.colNums j) (1/4) with
      | none =>
        rw [h1] at h
        cases h2 : quantile (f.colNums j) (3/4) <;> rw [h2] at h <;>
          dsimp only at h <;> cases h <;> rfl
      | some q1 =>
        rw [h1] at h
        cases h2 : quantile (f.colNums j) (3/4) with
        | none => rw [h2] at h; dsimp only at h; cases h; rfl
        | some q3 => rw [h2] at h; dsimp only at h; cases h; rfl

theorem removeOutliers_headers (cols : List String) (u : ℚ) (f g : Frame)
    (h : removeOutliers cols u f = Except.ok g) : g.headers = f.headers := by
  induction cols generalizing f with
  | nil =>
    simp only [removeOutliers, List.foldlM] at h
    cases h; rfl
  | cons c cols ih =>
    rw [removeOutliers, List.foldlM_cons] at h
    cases hs : outlierStep u f c with
    | error e =>
      rw [hs] at h
      dsimp only [Bind.bind, Except.bind] at h
      cases h
    | ok f1 =>
      rw [hs] at h
      have h1 : removeOutliers cols u f1 = Except.ok g := h
      rw [ih f1 h1]
      exact outlierStep_headers u f c f1 hs

theorem colIdx_eq_of_headers (f g : Frame) (h : f.headers = g.headers) :
    f.colIdx = g.colIdx := by
  funext c; unfold Frame.colIdx; rw [h]

theorem kindAt_eq_of_headers (f g : Frame) (h : f.headers = g.headers) :
    f.kindAt = g.kindAt := by
  funext j; unfold Frame.kindAt; rw [h]

theorem goodCol_of_headers (f g : Frame) (c : String) (h : f.headers = g.headers)
    (hg : goodCol f c) : goodCol g c := by
  unfold goodCol at *
  rw [← colIdx_eq_of_headers f g h, ← kindAt_eq_of_headers f g h]
  exact hg

theorem colError_of_headers (f g : Frame) (c : String) (h : f.headers = g.headers) :
    colError f c = colError g c := by
  unfold colError
  rw [← colIdx_eq_of_headers f g h, ← kindAt_eq_of_headers f g h]

theorem outlierStep_err (u : ℚ) (f : Frame) (c : String) (e : CleanError)
    (h : colError f c = some e) : outlierStep u f c = Except.error e := by
  unfold colError at h
  unfold outlierStep
  cases hidx : f.colIdx c with
  | none =>
    rw [hidx] at h
    dsimp only at h ⊢
    cases h
    rfl
  | some j =>
    rw [hidx] at h
    dsimp only at h ⊢
    by_cases hk : f.kindAt j = ColKind.obj
    · rw [if_pos hk] at h; cases h; rw [if_pos hk]
    · rw [if_neg hk] at h; cases h

theorem outlierStep_ok_of_good (u : ℚ) (f : Frame) (c : String)
    (h : goodCol f c) : ∃ g, outlierStep u f c = Except.ok g ∧ g.headers = f.headers := by
  rcases h with ⟨j, hidx, hk⟩
  have hk' : ¬ f.kindAt j = ColKind.obj := by rw [hk]; intro hcon; cases hcon
  unfold outlierStep
  rw [hidx]
  dsimp only
  rw [if_neg hk']
  cases h1 : quantile (f.colNums j) (1/4) with
  | none =>
    cases h2 : quantile (f.colNums j) (3/4) <;> exact ⟨_, rfl, rfl⟩
  | some q1 =>
    cases h2 : quantile (f.colNums j) (3/4) <;> exact ⟨_, rfl, rfl⟩

theorem removeOutliers_err (cs1 : List String) (c : String) (cs2 : List String)
    (u : ℚ) (f : Frame) (e : CleanError)
    (hgood : ∀ x ∈ cs1, goodCol f x) (hbad : colError f c = some e) :
    removeOutliers (cs1 ++ c :: cs2) u f = Except.error e := by
  induction cs1 generalizing f with
  | nil =>
    rw [List.nil_append, removeOutliers, List.foldlM_cons,
      outlierStep_err u f c e hbad]
    rfl
  | cons x cs1 ih =>
    rcases outlierStep_ok_of_good u f x (hgood x (List.mem_cons_self x cs1)) with
      ⟨g, hs, hh⟩
    rw [List.cons_append, removeOutliers, List.foldlM_cons, hs]
    have hg : ∀ y ∈ cs1, goodCol g y := fun y hy =>
      goodCol_of_headers f g y hh.symm (hgood y (List.mem_cons_of_mem x hy))
    have hbg : colError g c = some e := by
      rw [← colError_of_headers f g c hh.symm]; exact hbad
    exact ih g hg hbg

/-! ## Lemmas about the pipeline loop -/

theorem applyOp_headers (st : PipeState) (op : Op) (st2 : PipeState)
    (h : applyOp st op = Except.ok st2) : st2.df.headers = st.df.headers := by
  unfold applyOp at h
  by_cases h1 : op.tipo = "duplicados"
  · rw [if_pos h1] at h; dsimp only at h; cases h; rfl
  · rw [if_neg h1] at h
    by_cases h2 : op.tipo = "nulos"
    · rw [if_pos h2] at h; dsimp only at h; cases h; rfl
    · rw [if_neg h2] at h
      by_cases h3 : op.tipo = "outliers"
      · rw [if_pos h3] at h
        dsimp only at h
        cases hro : removeOutliers (op.columnas.getD st.df.numericCols)
            (op.umbral.getD (3/2)) st.df with
        | error e => rw [hro] at h; cases h
        | ok df2 =>
          rw [hro] at h
          dsimp only at h
          cases h
          exact removeOutliers_headers _ _ _ _ hro
      · rw [if_neg h3] at h; cases h; rfl

theorem applyOp_dups_of_ne (st : PipeState) (op : Op) (st2 : PipeState)
    (hne : op.tipo ≠ "duplicados") (h : applyOp st op = Except.ok st2) :
    st2.dups = st.dups := by
  unfold applyOp at h
  rw [if_neg hne] at h
  by_cases h2 : op.tipo = "nulos"
  · rw [if_pos h2] at h; dsimp only at h; cases h; rfl
  · rw [if_neg h2] at h
    by_cases h3 : op.tipo = "outliers"
    · rw [if_pos h3] at h
      dsimp only at h
      cases hro : removeOutliers (op.columnas.getD st.df.numericCols)
          (op.umbral.getD (3/2)) st.df with
      | error e => rw [hro] at h; cases h
      | ok df2 => rw [hro] at h; dsimp only at h; cases h; rfl
    · rw [if_neg h3] at h; cases h; rfl

theorem runOps_headers (ops : List Op) (st st' : PipeState)
    (h : runOps st ops = RunOutcome.done st') : st'.df.headers = st.df.headers := by
  induction ops generalizing st with
  | nil => cases h; rfl
  | cons op rest ih =>
    rw [runOps] at h
    cases ha : applyOp st op with
    | error e => rw [ha] at h; cases h
    | ok st2 =>
      rw [ha] at h
      rw [ih st2 h]
      exact applyOp_headers st op st2 ha

theorem runOps_dups (ops : List Op) (st st' : PipeState)
    (hne : ∀ o ∈ ops, o.tipo ≠ "duplicados")
    (h : runOps st ops = RunOutcome.done st') : st'.dups = st.dups := by
  induction ops generalizing st with
  | nil => cases h; rfl
  | cons op rest ih =>
    rw [runOps] at h
    cases ha : applyOp st op with
    | error e => rw [ha] at h; cases h
    | ok st2 =>
      rw [ha] at h
      rw [ih st2 (fun o ho => hne o (List.mem_cons_of_mem op ho)) h]
      exact applyOp_dups_of_ne st op st2 (hne op (List.mem_cons_self op rest)) ha

theorem runOps_append (l1 l2 : List Op) (st st' : PipeState)
    (h : runOps st l1 = RunOutcome.done st') :
    runOps st (l1 ++ l2) = runOps st' l2 := by
  induction l1 generalizing st with
  | nil => cases h; rfl
  | cons op rest ih =>
    rw [List.cons_append]
    rw [runOps] at h
    rw [runOps]
    cases ha : applyOp st op with
    | error e => rw [ha] at h; cases h
    | ok st2 =>
      rw [ha] at h
      dsimp only at h ⊢
      exact ih st2 h

/-! ## Claim theorems -/

/-- C1, counterexample.  On the frame with rows `[[1], [1]]` and two
`Deduplicate` operations, the first operation removes one row (its removed
row being `[1]`, as the second conjunct computes), yet the side-table at the
end of the run is empty: line 163 of `src/app.py` assigns
`duplicados_guardados = df[df.duplicated()]`, so the second `Deduplicate`
overwrites the side-table with the (now empty) duplicate set instead of
accumulating the union of removed rows. -/
theorem C1_counterexample :
    runOps (initState { headers := [("x", ColKind.numeric)],
                        rows := [[some (Value.num 1)], [some (Value.num 1)]] })
      [{ tipo := "duplicados" }, { tipo := "duplicados" }] =
      RunOutcome.done
        { df := { headers := [("x", ColKind.numeric)], rows := [[some (Value.num 1)]] },
          report := [{ tipo := "duplicados", columnas := none, umbral := none, afectados := 1 },
                     { tipo := "duplicados", columnas := none, umbral := none, afectados := 0 }],
          total := 1,
          dups := [] } ∧
    duplicatedRows [[some (Value.num 1)], [some (Value.num 1)]] =
      [[some (Value.num 1)]] := by
  constructor <;> rfl

/-- C1, amended: each `Deduplicate` operation overwrites
`duplicados_guardados`, so at the end of a run the Duplicates Side-table
holds exactly the rows removed by the last executed `Deduplicate` operation
(the rows flagged `duplicated` in the frame that operation received), not
the accumulated union over all of them. -/
theorem C1_amended (st st' : PipeState) (op : Op) (rest : List Op)
    (hop : op.tipo = "duplicados")
    (hrest : ∀ o ∈ rest, o.tipo ≠ "duplicados")
    (h : runOps st (op :: rest) = RunOutcome.done st') :
    st'.dups = duplicatedRows st.df.rows := by
  rw [runOps] at h
  cases ha : applyOp st op with
  | error e => rw [ha] at h; cases h
  | ok st2 =>
    rw [ha] at h
    dsimp only at h
    have hd : st2.dups = duplicatedRows st.df.rows := by
      unfold applyOp at ha
      rw [if_pos hop] at ha
      dsimp only at ha
      cases ha
      rfl
    exact (runOps_dups rest st2 st' hrest h).trans hd

/-- C1, witness for the amended theorem at a concrete run: one `Deduplicate`
on the frame with rows `[[5], [5]]` and no later `Deduplicate`. -/
theorem C1_amended_witness :
    (PipeState.dups
      { df := { headers := [("x", ColKind.numeric)], rows := [[some (Value.num 5)]] },
        report := [{ tipo := "duplicados", columnas := none, umbral := none, afectados := 1 }],
        total := 1,
        dups := [[some (Value.num 5)]] }) =
      duplicatedRows [[some (Value.num 5)], [some (Value.num 5)]] :=
  C1_amended
    (initState { headers := [("x", ColKind.numeric)],
                 rows := [[some (Value.num 5)], [some (Value.num 5)]] })
    { df := { headers := [("x", ColKind.numeric)], rows := [[some (Value.num 5)]] },
      report := [{ tipo := "duplicados", columnas := none, umbral := none, afectados := 1 }],
      total := 1,
      dups := [[some (Value.num 5)]] }
    { tipo := "duplicados" } [] rfl (by intro o ho; cases ho) (by rfl)

section

set_option allowUnsafeReducibility true

attribute [local semireducible] Rat.add Rat.mul Rat.sub Rat.inv

/-- C2, counterexample.  On the two-numeric-column frame with rows
`(A,B) = (0,0), (0,0), (0,0), (0,10), (100,6)` and threshold `1.5`, the
order `[A, B]` keeps three rows while the order `[B, A]` keeps four: the
row `(0, 10)` survives `[B, A]` but not `[A, B]`, because each column's
quartiles are recomputed on the frame already filtered by the earlier
columns (filtering `A` first removes `(100, 6)`, which tightens `B`'s
interquartile range enough to exclude `10`).  The final row set therefore
depends on the listed column order, refuting the claimed invariance. -/
theorem C2_counterexample :
    removeOutliers ["A", "B"] (3/2)
      { headers := [("A", ColKind.numeric), ("B", ColKind.numeric)],
        rows := [[some (Value.num 0), some (Value.num 0)],
                 [some (Value.num 0), some (Value.num 0)],
                 [some (Value.num 0), some (Value.num 0)],
                 [some (Value.num 0), some (Value.num 10)],
                 [some (Value.num 100), some (Value.num 6)]] } =
      Except.ok
        { headers := [("A", ColKind.numeric), ("B", ColKind.numeric)],
          rows := [[some (Value.num 0), some (Value.num 0)],
                   [some (Value.num 0), some (Value.num 0)],
                   [some (Value.num 0), some (Value.num 0)]] } ∧
    removeOutliers ["B", "A"] (3/2)
      { headers := [("A", ColKind.numeric), ("B", ColKind.numeric)],
        rows := [[some (Value.num 0), some (Value.num 0)],
                 [some (Value.num 0), some (Value.num 0)],
                 [some (Value.num 0), some (Value.num 0)],
                 [some (Value.num 0), some (Value.num 10)],
                 [some (Value.num 100), some (Value.num 6)]] } =
      Except.ok
        { headers := [("A", ColKind.numeric), ("B", ColKind.numeric)],
          rows := [[some (Value.num 0), some (Value.num 0)],
                   [some (Value.num 0), some (Value.num 0)],
                   [some (Value.num 0), some (Value.num 0)],
                   [some (Value.num 0), some (Value.num 10)]] } ∧
    [some (Value.num 0), some (Value.num 10)] ∈
      ([[some (Value.num 0), some (Value.num 0)],
        [some (Value.num 0), some (Value.num 0)],
        [some (Value.num 0), some (Value.num 0)],
        [some (Value.num 0), some (Value.num 10)]] : List Row) ∧
    [some (Value.num 0), some (Value.num 10)] ∉
      ([[some (Value.num 0), some (Value.num 0)],
        [some (Value.num 0), some (Value.num 0)],
        [some (Value.num 0), some (Value.num 0)]] : List Row) := by
  refine ⟨by decide, by decide, by decide, by decide⟩

/-- C2, amended: the cumulative per-column IQR filtering is NOT invariant
under reordering of the listed columns.  Because Q1/Q3 are recomputed on the
progressively filtered frame, there exist a frame with two existing numeric
columns and a positive threshold for which the orders `[a, b]` and `[b, a]`
both succeed yet produce different final row sets (some row is kept by one
order and removed by the other). -/
theorem C2_amended :
    ∃ (f : Frame) (a b : String) (u : ℚ),
      0 < u ∧ goodCol f a ∧ goodCol f b ∧
      ∃ fab fba, removeOutliers [a, b] u f = Except.ok fab ∧
        removeOutliers [b, a] u f = Except.ok fba ∧
        ∃ r, r ∈ fba.rows ∧ r ∉ fab.rows := by
  refine ⟨{ headers := [("A", ColKind.numeric), ("B", ColKind.numeric)],
            rows := [[some (Value.num 0), some (Value.num 0)],
                     [some (Value.num 0), some (Value.num 0)],
                     [some (Value.num 0), some (Value.num 0)],
                     [some (Value.num 0), some (Value.num 10)],
                     [some (Value.num 100), some (Value.num 6)]] },
          "A", "B", 3/2, by norm_num, by decide, by decide,
          { headers := [("A", ColKind.numeric), ("B", ColKind.numeric)],
            rows := [[some (Value.num 0), some (Value.num 0)],
                     [some (Value.num 0), some (Value.num 0)],
                     [some (Value.num 0), some (Value.num 0)]] },
          { headers := [("A", ColKind.numeric), ("B", ColKind.numeric)],
            rows := [[some (Value.num 0), some (Value.num 0)],
                     [some (Value.num 0), some (Value.num 0)],
                     [some (Value.num 0), some (Value.num 0)],
                     [some (Value.num 0), some (Value.num 10)]] },
          by decide, by decide, [some (Value.num 0), some (Value.num 10)],
          by decide, by decide⟩

end

/-- C3: the specified scenario.  Frame with one numeric column `x` and rows
`[1, 2, 2, null]`, operations `[Deduplicate, FillNulls]`: the cleaned frame
is `[1, 2, 0]`, the duplicates side-table is `[[2]]`, the report lists
`duplicados` with 1 row affected then `nulos` with 1 cell affected, and the
running total is 2. -/
theorem C3_scenario :
    runOps (initState { headers := [("x", ColKind.numeric)],
                        rows := [[some (Value.num 1)], [some (Value.num 2)],
                                 [some (Value.num 2)], [none]] })
      [{ tipo := "duplicados" }, { tipo := "nulos" }] =
      RunOutcome.done
        { df := { headers := [("x", ColKind.numeric)],
                  rows := [[some (Value.num 1)], [some (Value.num 2)],
                           [some (Value.num 0)]] },
          report := [{ tipo := "duplicados", columnas := none, umbral := none, afectados := 1 },
                     { tipo := "nulos", columnas := none, umbral := none, afectados := 1 }],
          total := 2,
          dups := [[some (Value.num 2)]] } := by
  rfl

/-- C4: on a well-formed frame with `k` null cells in total, the `nulos`
operation reports `afectados = k` (a cell-level count), the filled frame has
zero null cells, and every cell is unchanged if it was non-null and
otherwise replaced by `"N/A"` in an object column and by the number `0` in
any other column. -/
theorem C4_fillnulls (st : PipeState) (op : Op) (k : ℕ)
    (hop : op.tipo = "nulos") (hwf : st.df.wf) (hk : countNulls st.df = k) :
    applyOp st op = Except.ok
      { st with df := fillNulls st.df,
                report := st.report ++
                  [{ tipo := op.tipo, columnas := op.columnas,
                     umbral := op.umbral, afectados := k }],
                total := st.total + k } ∧
    countNulls (fillNulls st.df) = 0 ∧
    (∀ i j, (hi : i < st.df.rows.length) → (hj : j < st.df.headers.length) →
      (fillNulls st.df).cellAt i j =
        some ((st.df.cellAt i j).getD
          (match st.df.kindAt j with
           | ColKind.obj => Value.str "N/A"
           | ColKind.numeric => Value.num 0))) := by
  subst hk
  refine ⟨?_, countNulls_fillNulls st.df, ?_⟩
  · unfold applyOp
    rw [hop]
    rw [if_neg (by decide : ¬ ("nulos" : String) = "duplicados")]
    rw [if_pos rfl]
  · intro i j hi hj
    have hlen : (st.df.rows[i]).length = st.df.headers.length :=
      hwf _ (st.df.rows.getElem_mem hi)
    have hj2 : j < (st.df.rows[i]).length := by rw [hlen]; exact hj
    have hcell : st.df.cellAt i j = (st.df.rows[i])[j] := by
      unfold Frame.cellAt
      rw [List.getD_eq_getElem st.df.rows [] hi]
      exact List.getD_eq_getElem _ none hj2
    have hkind : st.df.kindAt j = (st.df.headers[j]).2 := by
      unfold Frame.kindAt
      rw [List.getD_eq_getElem st.df.headers ("", ColKind.obj) hj]
    have hi' : i < (List.map (fillRow (List.map Prod.snd st.df.headers)) st.df.rows).length := by
      simpa using hi
    have hjz : j < (List.zipWith fillCell (List.map Prod.snd st.df.headers)
        (st.df.rows[i])).length := by
      rw [List.length_zipWith, List.length_map, hlen]
      exact lt_min hj hj
    have hmain : (fillNulls st.df).cellAt i j =
        fillCell ((st.df.headers[j]).2) ((st.df.rows[i])[j]) := by
      unfold fillNulls Frame.cellAt
      dsimp only
      rw [List.getD_eq_getElem _ [] hi', List.getElem_map]
      unfold fillRow
      rw [List.getD_eq_getElem _ none hjz, List.getElem_zipWith]
      rw [List.getElem_map]
    rw [hmain, hcell, hkind]
    cases hv : (st.df.rows[i])[j] with
    | none => cases (st.df.headers[j]).2 <;> rfl
    | some v => rfl

/-- C4, witness at a concrete input: a well-formed frame with one object
column, one numeric column and two null cells; after `nulos`, no nulls
remain and `afectados = 2`. -/
theorem C4_witness :
    applyOp (initState { headers := [("a", ColKind.obj), ("b", ColKind.numeric)],
                         rows := [[none, some (Value.num 1)],
                                  [some (Value.str "x"), none]] })
      { tipo := "nulos" } = Except.ok
      { df := { headers := [("a", ColKind.obj), ("b", ColKind.numeric)],
                rows := [[some (Value.str "N/A"), some (Value.num 1)],
                         [some (Value.str "x"), some (Value.num 0)]] },
        report := [{ tipo := "nulos", columnas := none, umbral := none, afectados := 2 }],
        total := 2,
        dups := [] } ∧
    countNulls { headers := [("a", ColKind.obj), ("b", ColKind.numeric)],
                 rows := [[some (Value.str "N/A"), some (Value.num 1)],
                          [some (Value.str "x"), some (Value.num 0)]] } = 0 := by
  have h := C4_fillnulls
    (initState { headers := [("a", ColKind.obj), ("b", ColKind.numeric)],
                 rows := [[none, some (Value.num 1)],
                          [some (Value.str "x"), none]] })
    { tipo := "nulos" } 2 rfl (by decide) (by decide)
  exact ⟨h.1, h.2.1⟩

/-- C5: when a `RemoveOutliers` operation reaches an offending column — the
first such column `c` in its list, every column before it existing and being
numeric — the pipeline raises `columnNotFound` (the `KeyError`) if `c` does
not exist and `columnType` (the `TypeError`) if `c` exists but is not
numeric; the loop aborts in the failure state `st` reached after the prior
operations (their effects on the frame retained, no rollback, no later
operation executed), and the endpoint answers with the error itself having
performed only the catalog query and the blob download: no artifact upload
and no catalog insert of any kind. -/
theorem C5_outlier_failure (req : Request) (ds : StoredDataset)
    (pre post : List Op) (op : Op) (cs1 cs2 : List String) (c : String)
    (e : CleanError) (st : PipeState)
    (hid : falsyId req.dataset_id = false)
    (hreq : req.tipos_limpieza = pre ++ op :: post)
    (hop : op.tipo = "outliers")
    (hcols : op.columnas = some (cs1 ++ c :: cs2))
    (hpre : runOps (initState ds.frame) pre = RunOutcome.done st)
    (hgood : ∀ x ∈ cs1, goodCol ds.frame x)
    (hbad : colError ds.frame c = some e) :
    runOps (initState ds.frame) req.tipos_limpieza = RunOutcome.failed e st ∧
    limpiarEndpoint req (some ds) =
      (ApiResult.serverError e,
       [Effect.queryDataset (req.dataset_id.getD 0), Effect.downloadBlob ds.ruta]) := by
  have hhead : st.df.headers = ds.frame.headers :=
    runOps_headers pre (initState ds.frame) st hpre
  have hgood' : ∀ x ∈ cs1, goodCol st.df x := fun x hx =>
    goodCol_of_headers ds.frame st.df x hhead.symm (hgood x hx)
  have hbad' : colError st.df c = some e := by
    rw [colError_of_headers st.df ds.frame c hhead]
    exact hbad
  have hro : removeOutliers (cs1 ++ c :: cs2) (op.umbral.getD (3/2)) st.df =
      Except.error e :=
    removeOutliers_err cs1 c cs2 _ st.df e hgood' hbad'
  have happ : applyOp st op = Except.error e := by
    unfold applyOp
    rw [hop]
    rw [if_neg (by decide : ¬ ("outliers" : String) = "duplicados")]
    rw [if_neg (by decide : ¬ ("outliers" : String) = "nulos")]
    rw [if_pos rfl, hcols, Option.getD_some]
    dsimp only
    rw [hro]
  have hfail : runOps (initState ds.frame) req.tipos_limpieza =
      RunOutcome.failed e st := by
    rw [hreq, runOps_append pre (op :: post) (initState ds.frame) st hpre,
      runOps, happ]
  refine ⟨hfail, ?_⟩
  have hne : req.tipos_limpieza.isEmpty = false := by
    rw [hreq]
    cases pre <;> rfl
  have hcond : (falsyId req.dataset_id || req.tipos_limpieza.isEmpty) = false := by
    rw [hid, hne]
    rfl
  unfold limpiarEndpoint
  rw [hcond]
  rw [if_neg (by decide : ¬ ((false : Bool) = true))]
  dsimp only
  rw [hfail]

/-- C5, witness at a concrete input: a one-column object frame, no prior
operations, and a `RemoveOutliers` on the object column `t`; the endpoint
performs only the query and the download and surfaces the type error. -/
theorem C5_witness :
    limpiarEndpoint
      { dataset_id := some 1,
        tipos_limpieza := [{ tipo := "outliers", columnas := some ["t"] }] }
      (some { ruta := "datasets/d.csv",
              frame := { headers := [("t", ColKind.obj)],
                         rows := [[some (Value.str "a")]] } }) =
      (ApiResult.serverError (CleanError.columnType "t"),
       [Effect.queryDataset 1, Effect.downloadBlob "datasets/d.csv"]) :=
  (C5_outlier_failure
    { dataset_id := some 1,
      tipos_limpieza := [{ tipo := "outliers", columnas := some ["t"] }] }
    { ruta := "datasets/d.csv",
      frame := { headers := [("t", ColKind.obj)], rows := [[some (Value.str "a")]] } }
    [] [] { tipo := "outliers", columnas := some ["t"] } [] [] "t"
    (CleanError.columnType "t")
    (initState { headers := [("t", ColKind.obj)], rows := [[some (Value.str "a")]] })
    rfl rfl rfl rfl rfl (by intro x hx; cases hx) (by decide)).2

/-- C6: an operation whose `tipo` is none of `duplicados`, `nulos`,
`outliers` does not fail and does not touch the frame, the running total or
the side-table: it is appended to the report at its submission position
with `afectados = 0`, and the loop continues with the remaining
operations from that same state. -/
theorem C6_unknown_kind (st : PipeState) (op : Op) (rest : List Op)
    (hnot : op.tipo ∉ (["duplicados", "nulos", "outliers"] : List String)) :
    applyOp st op = Except.ok
      { st with report := st.report ++
          [{ tipo := op.tipo, columnas := op.columnas,
             umbral := op.umbral, afectados := 0 }] } ∧
    runOps st (op :: rest) =
      runOps { st with report := st.report ++
          [{ tipo := op.tipo, columnas := op.columnas,
             umbral := op.umbral, afectados := 0 }] } rest := by
  have h1 : ¬ op.tipo = "duplicados" := fun h => hnot (by rw [h]; simp)
  have h2 : ¬ op.tipo = "nulos" := fun h => hnot (by rw [h]; simp)
  have h3 : ¬ op.tipo = "outliers" := fun h => hnot (by rw [h]; simp)
  have ha : applyOp st op = Except.ok
      { st with report := st.report ++
          [{ tipo := op.tipo, columnas := op.columnas,
             umbral := op.umbral, afectados := 0 }] } := by
    unfold applyOp
    rw [if_neg h1, if_neg h2, if_neg h3]
  refine ⟨ha, ?_⟩
  rw [runOps, ha]

/-- C6, witness at a concrete input: the unrecognised kind `renombrar` is a
recorded no-op and the loop goes on. -/
theorem C6_witness :
    applyOp (initState { headers := [("x", ColKind.numeric)],
                         rows := [[some (Value.num 7)]] })
      { tipo := "renombrar" } = Except.ok
      { df := { headers := [("x", ColKind.numeric)], rows := [[some (Value.num 7)]] },
        report := [{ tipo := "renombrar", columnas := none, umbral := none, afectados := 0 }],
        total := 0,
        dups := [] } :=
  (C6_unknown_kind
    (initState { headers := [("x", ColKind.numeric)], rows := [[some (Value.num 7)]] })
    { tipo := "renombrar" } [] (by decide)).1

/-- C7: `Deduplicate` is idempotent once applied — after a successful
`duplicados` operation, a second `duplicados` operation reports
`afectados = 0` and leaves the frame unchanged (no row of the deduplicated
frame equals an earlier row). -/
theorem C7_dedup_idempotent (st st2 st3 : PipeState) (op1 op2 : Op)
    (h1 : op1.tipo = "duplicados") (h2 : op2.tipo = "duplicados")
    (e2 : applyOp st op1 = Except.ok st2) (e3 : applyOp st2 op2 = Except.ok st3) :
    st3.report = st2.report ++
      [{ tipo := op2.tipo, columnas := op2.columnas,
         umbral := op2.umbral, afectados := 0 }] ∧
    st3.df = st2.df ∧ st3.total = st2.total := by
  unfold applyOp at e2 e3
  rw [if_pos h1] at e2
  rw [if_pos h2] at e3
  dsimp only at e2 e3
  cases e2
  cases e3
  have hidem := dropDuplicates_idem st.df.rows
  dsimp only at hidem ⊢
  refine ⟨?_, ?_, ?_⟩
  · rw [hidem, Nat.sub_self]
  · rw [hidem]
  · rw [hidem, Nat.sub_self, Nat.add_zero]

/-- C7, witness at a concrete input: two consecutive `duplicados` operations
on the frame with rows `[[1], [1]]`; the second one affects nothing. -/
theorem C7_witness :
    PipeState.report
      { df := { headers := [("x", ColKind.numeric)], rows := [[some (Value.num 1)]] },
        report := [{ tipo := "duplicados", columnas := none, umbral := none, afectados := 1 },
                   { tipo := "duplicados", columnas := none, umbral := none, afectados := 0 }],
        total := 1,
        dups := [] } =
    PipeState.report
      { df := { headers := [("x", ColKind.numeric)], rows := [[some (Value.num 1)]] },
        report := [{ tipo := "duplicados", columnas := none, umbral := none, afectados := 1 }],
        total := 1,
        dups := [[some (Value.num 1)]] } ++
      [{ tipo := "duplicados", columnas := none, umbral := none, afectados := 0 }] :=
  (C7_dedup_idempotent
    (initState { headers := [("x", ColKind.numeric)],
                 rows := [[some (Value.num 1)], [some (Value.num 1)]] })
    { df := { headers := [("x", ColKind.numeric)], rows := [[some (Value.num 1)]] },
      report := [{ tipo := "duplicados", columnas := none, umbral := none, afectados := 1 }],
      total := 1,
      dups := [[some (Value.num 1)]] }
    { df := { headers := [("x", ColKind.numeric)], rows := [[some (Value.num 1)]] },
      report := [{ tipo := "duplicados", columnas := none, umbral := none, afectados := 1 },
                 { tipo := "duplicados", columnas := none, umbral := none, afectados := 0 }],
      total := 1,
      dups := [] }
    { tipo := "duplicados" } { tipo := "duplicados" } rfl rfl (by rfl) (by rfl)).1

/-- C8: when the loop completes with an empty duplicates side-table, the
endpoint uploads only the cleaned artifact, inserts only the main
`limpiezas_datos` record (no `duplicados_datasets` record, no duplicates
upload), and the summary's duplicates URL is absent. -/
theorem C8_no_duplicates (req : Request) (ds : StoredDataset) (st : PipeState)
    (hid : falsyId req.dataset_id = false)
    (hne : req.tipos_limpieza.isEmpty = false)
    (hrun : runOps (initState ds.frame) req.tipos_limpieza = RunOutcome.done st)
    (hdups : st.dups = []) :
    limpiarEndpoint req (some ds) =
      (ApiResult.success st.report st.total
         (publicUrl ("clean/clean_multi_" ++ basename ds.ruta)) none,
       [Effect.queryDataset (req.dataset_id.getD 0),
        Effect.downloadBlob ds.ruta,
        Effect.uploadBlob ("clean/clean_multi_" ++ basename ds.ruta),
        Effect.insertLimpieza (req.dataset_id.getD 0) st.report st.total
          ("clean/clean_multi_" ++ basename ds.ruta) none]) := by
  have hcond : (falsyId req.dataset_id || req.tipos_limpieza.isEmpty) = false := by
    rw [hid, hne]
    rfl
  unfold limpiarEndpoint
  rw [hcond]
  rw [if_neg (by decide : ¬ ((false : Bool) = true))]
  dsimp only
  rw [hrun]
  dsimp only
  rw [hdups]
  rfl

/-- C8, witness at a concrete input: a run with a single `nulos` operation
on a duplicate-free frame; no duplicates artifact, record or URL appears. -/
theorem C8_witness :
    limpiarEndpoint
      { dataset_id := some 2, tipos_limpieza := [{ tipo := "nulos" }] }
      (some { ruta := "datasets/a.csv",
              frame := { headers := [("x", ColKind.numeric)], rows := [[none]] } }) =
      (ApiResult.success
         [{ tipo := "nulos", columnas := none, umbral := none, afectados := 1 }] 1
         (publicUrl "clean/clean_multi_a.csv") none,
       [Effect.queryDataset 2,
        Effect.downloadBlob "datasets/a.csv",
        Effect.uploadBlob "clean/clean_multi_a.csv",
        Effect.insertLimpieza 2
          [{ tipo := "nulos", columnas := none, umbral := none, afectados := 1 }] 1
          "clean/clean_multi_a.csv" none]) :=
  C8_no_duplicates
    { dataset_id := some 2, tipos_limpieza := [{ tipo := "nulos" }] }
    { ruta := "datasets/a.csv",
      frame := { headers := [("x", ColKind.numeric)], rows := [[none]] } }
    { df := { headers := [("x", ColKind.numeric)], rows := [[some (Value.num 0)]] },
      report := [{ tipo := "nulos", columnas := none, umbral := none, afectados := 1 }],
      total := 1,
      dups := [] }
    rfl rfl (by rfl) rfl

/-- `csvParse` can only fail with a parser error, never with a decoding
failure: decoding happened before it was called. -/
theorem csvParse_error_parse (b : Bool) (t : List ℕ) (e : LoadError)
    (h : csvParse b t = Except.error e) : e = LoadError.parseFailure := by
  unfold csvParse at h
  cases hl : (splitOnCp 10 (normalizeNewlines t)).filter (fun l => l ≠ []) with
  | nil => rw [hl] at h; cases h; rfl
  | cons hd tl =>
    rw [hl] at h
    dsimp only at h
    by_cases hb : b = true
    · rw [if_pos hb] at h; cases h
    · rw [if_neg hb] at h
      by_cases hany : ((tl.map (splitOnCp 44)).any
          (fun r => ((splitOnCp 44 hd).map cpsToString).length < r.length)) = true
      · rw [if_pos hany] at h; cases h; rfl
      · rw [if_neg hany] at h; cases h

/-- C9, counterexample.  The byte `0xFF` can never occur in UTF-8, so the
primary decoding attempt fails on the payload `[0xFF]`; with declared
format json the code (`pd.read_json(..., encoding=utf-8)`, line 56 of
`src/app.py`) performs no fallback retry, and the decoding failure itself
is the outcome — contradicting the claim that a decoding failure is always
followed by one retry with a permissive fallback encoding that cannot
raise. -/
theorem C9_counterexample :
    readDataset [255] Fmt.json = Except.error LoadError.decodeFailure := by
  rfl

/-- C9, amended: the UTF-8-then-latin-1 retry exists only for csv.  For
every payload: an unsupported declared format is rejected with the format
error; a csv read never ends in a decoding failure (on a UTF-8 decoding
failure it is retried once with latin-1, which decodes any byte); a json
read is attempted with UTF-8 only, surfacing the decoding failure with no
retry when UTF-8 rejects the payload. -/
theorem C9_amended (bytes : List ℕ) :
    readDataset bytes Fmt.other = Except.error LoadError.formatError ∧
    readDataset bytes Fmt.csv ≠ Except.error LoadError.decodeFailure ∧
    (utf8Decode bytes = none →
      readDataset bytes Fmt.csv = csvParse false (latin1Decode bytes) ∧
      readDataset bytes Fmt.json = Except.error LoadError.decodeFailure) ∧
    (∀ t, utf8Decode bytes = some t →
      readDataset bytes Fmt.csv = csvParse false t ∧
      readDataset bytes Fmt.json = jsonParse t) := by
  refine ⟨rfl, ?_, ?_, ?_⟩
  · intro hcon
    unfold readDataset at hcon
    cases hu : utf8Decode bytes with
    | none =>
      rw [hu] at hcon
      dsimp only at hcon
      exact absurd (csvParse_error_parse false (latin1Decode bytes) _ hcon) (by decide)
    | some t =>
      rw [hu] at hcon
      dsimp only at hcon
      exact absurd (csvParse_error_parse false t _ hcon) (by decide)
  · intro hu
    unfold readDataset
    rw [hu]
    exact ⟨rfl, rfl⟩
  · intro t hu
    unfold readDataset
    rw [hu]
    exact ⟨rfl, rfl⟩

/-- C9, witness for the amended theorem at the concrete payload `[0xFF]`:
csv falls back to latin-1, json surfaces the decoding failure. -/
theorem C9_witness :
    readDataset [255] Fmt.csv = csvParse false (latin1Decode [255]) ∧
    readDataset [255] Fmt.json = Except.error LoadError.decodeFailure :=
  (C9_amended [255]).2.2.1 (by rfl)

/-- C10: a request without a dataset identifier, or with an empty operation
list, is rejected with the validation error before anything happens: no
catalog query, no download, no operation, no upload, no insert — the
effect list is empty. -/
theorem C10_validation (req : Request) (lookup : Option StoredDataset)
    (h : req.dataset_id = none ∨ req.tipos_limpieza = []) :
    limpiarEndpoint req lookup = (ApiResult.badRequest, []) := by
  have hc : (falsyId req.dataset_id || req.tipos_limpieza.isEmpty) = true := by
    rcases h with h | h
    · rw [h]
      rfl
    · rw [h]
      exact Bool.or_true _
  unfold limpiarEndpoint
  rw [hc, if_pos rfl]

/-- C10, witness at a concrete input: a request with no `dataset_id` is
answered with the validation error and an empty effect list. -/
theorem C10_witness :
    limpiarEndpoint { dataset_id := none, tipos_limpieza := [{ tipo := "nulos" }] }
      none = (ApiResult.badRequest, []) :=
  C10_validation
    { dataset_id := none, tipos_limpieza := [{ tipo := "nulos" }] } none (Or.inl rfl)

end Backend
